import Mathlib

/-!
Verification of the scrapper2000 repository: a shallow embedding in Lean 4 of
the claim-generation pipeline (claimgenerator.py) and of the CSV-saving steps of
the two scrapers (clinic_scrapper.py, doctor_scrapper.py), with theorems
settling the testable properties of the specification.

Python dicts are embedded as association lists with first-match lookup and
in-place overwrite on insert (preserving insertion order, as Python dicts do).
The filesystem touched by each function is embedded as explicit state.
Randomness (random.choice, Faker data) is embedded as explicit parameters.
-/

set_option autoImplicit false

namespace Scrapper

/-- First-match lookup in an association list; embeds Python dict lookup
(dict keys are unique, so first match is the only match). -/
def lookupAssoc {β : Type} : List (String × β) → String → Option β
  | [], _ => none
  | (k, v) :: rest, key => if k = key then some v else lookupAssoc rest key

/-- Dict assignment d[key] = v: overwrite in place when the key is present,
append otherwise (Python dicts keep insertion order). -/
def insertAssoc {β : Type} : List (String × β) → String → β → List (String × β)
  | [], key, v => [(key, v)]
  | (k, w) :: rest, key, v =>
      if k = key then (key, v) :: rest else (k, w) :: insertAssoc rest key v

theorem lookupAssoc_insertAssoc_self {β : Type} (l : List (String × β))
    (key : String) (v : β) : lookupAssoc (insertAssoc l key v) key = some v := by
  induction l with
  | nil => simp [insertAssoc, lookupAssoc]
  | cons p rest ih =>
      obtain ⟨k, w⟩ := p
      by_cases h : k = key
      · simp [insertAssoc, lookupAssoc, h]
      · simp [insertAssoc, lookupAssoc, h, ih]

theorem lookupAssoc_insertAssoc_ne {β : Type} (l : List (String × β))
    (key key' : String) (v : β) (h : key' ≠ key) :
    lookupAssoc (insertAssoc l key v) key' = lookupAssoc l key' := by
  induction l with
  | nil => simp [insertAssoc, lookupAssoc, Ne.symm h]
  | cons p rest ih =>
      obtain ⟨k, w⟩ := p
      by_cases hk : k = key
      · subst hk
        simp [insertAssoc, lookupAssoc, Ne.symm h]
      · simp only [insertAssoc, if_neg hk, lookupAssoc]
        by_cases hk' : k = key'
        · simp [hk']
        · simp [hk', ih]

theorem lookupAssoc_insertAssoc {β : Type} (l : List (String × β))
    (key k : String) (v : β) :
    lookupAssoc (insertAssoc l key v) k =
      if k = key then some v else lookupAssoc l k := by
  by_cases h : k = key
  · rw [if_pos h, h, lookupAssoc_insertAssoc_self]
  · rw [if_neg h, lookupAssoc_insertAssoc_ne _ _ _ _ h]

/-! ## Billing items (claimgenerator.py, get_billing_items_for_diagnosis)

disease_consultation.json maps each diagnosis name to an object whose
"billing_items" key (possibly absent, defaulted to the empty list by
.get("billing_items", [])) holds a list of items with Item, Description,
Quantity, Unit Price and Total fields.  The numeric JSON fields are embedded
as integers; str() on them is toString. -/

/-- One JSON billing item of disease_consultation.json. -/
structure BillingJsonItem where
  item : String
  description : String
  quantity : Int
  unitPrice : Int
  total : Int
deriving DecidableEq, Repr

/-- The value billing_items_data.get(diagnosis, {}).get("billing_items", [])
attached to one diagnosis: an absent "billing_items" key is embedded as the
empty list, exactly what the .get default produces. -/
structure DiagnosisEntry where
  billing_items : List BillingJsonItem
deriving DecidableEq, Repr

/-- billing_items_data: the dict under the "diagnoses" key of
disease_consultation.json, mapping diagnosis names to entries. -/
abbrev BillingTable := List (String × DiagnosisEntry)

/-- The hard-coded two-row placeholder returned when no matching billing items
are found (claimgenerator.py lines 287-290). -/
def fallbackBillingRows : List (List String) :=
  [ ["Consultation", "General Consultation", "1", "1000", "1000"],
    ["Lab Test", "General Lab Test", "1", "500", "500"] ]

/-- get_billing_items_for_diagnosis (claimgenerator.py lines 275-291):
look the diagnosis up, take its billing_items (defaulting to []), return the
two-row placeholder when that list is empty, otherwise stringify each item
into a five-column row. -/
def get_billing_items_for_diagnosis (diagnosis : String)
    (billing_items_data : BillingTable) : List (List String) :=
  let items := ((lookupAssoc billing_items_data diagnosis).map
    (fun e => e.billing_items)).getD []
  if items.isEmpty then
    fallbackBillingRows
  else
    items.map (fun it =>
      [it.item, it.description, toString it.quantity, toString it.unitPrice,
       toString it.total])

/-! ## Decimal parsing and formatting

float(item[4]) and the f-string format :.2f.  Numbers are embedded as exact
scaled decimals (an integer numerator over a power of ten): the billing
strings of this program are short decimal literals, on which float parsing,
summation and :.2f formatting agree with exact decimal arithmetic.  A string
float() rejects with ValueError is embedded as none. -/

/-- An exact decimal value num / 10^exp. -/
structure Dec where
  num : Int
  exp : Nat
deriving DecidableEq, Repr

/-- Exact addition of two decimals (the running float sum). -/
def Dec.add (a b : Dec) : Dec :=
  let e := max a.exp b.exp
  ⟨a.num * (10 : Int) ^ (e - a.exp) + b.num * (10 : Int) ^ (e - b.exp), e⟩

/-- The value in hundredths, rounded to nearest with ties to even (the
rounding applied when the value is formatted with two fraction digits). -/
def Dec.cents (d : Dec) : Int :=
  let p : Int := (10 : Int) ^ d.exp
  let q := d.num * 100
  let f := q.fdiv p
  let r := q - f * p
  if 2 * r < p then f
  else if p < 2 * r then f + 1
  else if f % 2 = 0 then f else f + 1

/-- The rational value of a decimal (for stating value-level facts). -/
def Dec.toRat (d : Dec) : Rat :=
  (d.num : Rat) / ((10 : Rat) ^ d.exp)

/-- Digits of a non-empty decimal string to Nat; none on a non-digit. -/
def digitsToNat? (cs : List Char) : Option Nat :=
  if cs.isEmpty then none
  else cs.foldlM
    (fun acc c => if c.isDigit then some (acc * 10 + (c.toNat - 48)) else none) 0

/-- Split a character list at its first dot, when there is one. -/
def splitFirstDot : List Char → Option (List Char × List Char)
  | [] => none
  | c :: rest =>
      if c = '.' then some ([], rest)
      else (splitFirstDot rest).map (fun p => (c :: p.1, p.2))

/-- Python float() on a plain decimal literal: optional minus sign, then
digits, digits.digits, .digits or digits. — anything else (a second dot, a
non-digit, a bare sign or dot, the empty string) raises ValueError, embedded
as none. -/
def parseFloat (s : String) : Option Dec :=
  let signedBody : Bool × List Char :=
    match s.data with
    | '-' :: rest => (true, rest)
    | cs => (false, cs)
  let neg := signedBody.1
  let cs := signedBody.2
  let d? : Option Dec :=
    match splitFirstDot cs with
    | none => (digitsToNat? cs).map (fun n => ⟨(n : Int), 0⟩)
    | some (ip, fp) =>
        if fp.any (fun c => c = '.') then none
        else if ip.isEmpty && fp.isEmpty then none
        else do
          let i ← if ip.isEmpty then some 0 else digitsToNat? ip
          let f ← if fp.isEmpty then some 0 else digitsToNat? fp
          some ⟨((i * 10 ^ fp.length + f : Nat) : Int), fp.length⟩
  d?.map (fun d => if neg then ⟨-d.num, d.exp⟩ else d)

/-- The f-string format :.2f: the value rounded to hundredths and printed
with exactly two fraction digits. -/
def formatTwoDec (d : Dec) : String :=
  let cents := d.cents
  let sign := if cents < 0 then "-" else ""
  let n := cents.natAbs
  let frac := n % 100
  sign ++ toString (n / 100) ++ "." ++
    (if frac < 10 then "0" ++ toString frac else toString frac)

/-- sum([float(item[4]) for item in billing_items]) (claimgenerator.py line
257): item[4] raises IndexError on a short row and float() raises ValueError
on an unparseable string; both are exceptions escaping to the handler of
generate_claim_pdf, embedded as Except.error. -/
def computeTotal (billing_items : List (List String)) : Except String Dec :=
  billing_items.foldlM
    (fun acc item =>
      match item.get? 4 with
      | none => Except.error "IndexError: list index out of range"
      | some s =>
          match parseFloat s with
          | none => Except.error ("ValueError: could not convert string to float: " ++ s)
          | some v => Except.ok (acc.add v)) ⟨0, 0⟩

/-! ## The claim PDF renderer (claimgenerator.py, generate_claim_pdf)

The filesystem slice this function touches is embedded as RenderState: the
logo directory (path to a decodability flag: a present file whose flag is
false is a corrupted image on which Image.verify fails), the output documents
(path to the list of text strings drawn on the canvas — reportlab writes the
file only at c.save(), so an exception before save leaves no file), the
sequence of generate_logo calls, and the log.  Faker data (patient name and
id) and the date are explicit parameters. -/

/-- A clinic row as used by the renderer (name, address, telephone, email). -/
structure Clinic where
  name : String
  address : String
  telephone : String
  email : String
deriving DecidableEq, Repr

/-- A per-clinic style record of design.json. -/
structure Design where
  primary_color : String
  secondary_color : String
  font : String
deriving DecidableEq, Repr

/-- The filesystem-and-log state of the renderer. -/
structure RenderState where
  logos : List (String × Bool)
  outputs : List (String × List String)
  genCalls : List String
  logLines : List String
deriving DecidableEq, Repr

/-- os.path.exists on the logo directory. -/
def pathExists (st : RenderState) (p : String) : Bool :=
  (lookupAssoc st.logos p).isSome

/-- verify_logo (claimgenerator.py lines 158-176): the file exists and
Image.verify accepts it; a missing file or a failed verify gives False. -/
def verify_logo (st : RenderState) (logo_file : String) : Bool :=
  match lookupAssoc st.logos logo_file with
  | some ok => ok
  | none => false

/-- generate_logo (claimgenerator.py lines 123-156): draw the provider name
on a fresh image and save it.  The PIL drawing-and-save step is embedded as
succeeding, producing a decodable file; the call is recorded in genCalls. -/
def generate_logo (provider_name logo_file : String) (st : RenderState) :
    RenderState × Bool :=
  ({ st with
      logos := insertAssoc st.logos logo_file true,
      genCalls := st.genCalls ++ [logo_file],
      logLines := st.logLines ++
        ["Logo generated for " ++ provider_name ++ " and saved to " ++ logo_file] },
   true)

/-- os.path.join(logos_dir, f"logo_{clinic[name]}.png") (claimgenerator.py
line 205): the clinic name is spliced into the path verbatim. -/
def logo_file_for (clinicName : String) : String :=
  "logos/logo_" ++ clinicName ++ ".png"

/-- The text strings drawn on the canvas by generate_claim_pdf, in drawing
order (drawImage and the billing table grid are graphics, not text, and are
not listed). -/
def canvasTexts (clinic : Clinic) (doctor : String × String) (diagnosis : String)
    (patient_name : String) (patient_id : Nat) (dateOfService : String)
    (total_amount : Dec) : List String :=
  [ clinic.name,
    clinic.address,
    "Phone: " ++ clinic.telephone,
    "Email: " ++ clinic.email,
    "Medical Bill Receipt",
    "Patient Name: " ++ patient_name,
    "Patient ID: " ++ toString patient_id,
    "Date of Service: " ++ dateOfService,
    "Doctor: " ++ doctor.1 ++ " (" ++ doctor.2 ++ ")",
    "Diagnosis: " ++ diagnosis,
    "Total Amount: Rs " ++ formatTwoDec total_amount,
    "Thank you for choosing " ++ clinic.name ++ "!",
    "For any queries, please contact us at " ++ clinic.telephone ++ " or " ++
      clinic.email ]

/-- The logo block of generate_claim_pdf (claimgenerator.py lines 204-207):
if not os.path.exists(logo_file) or not verify_logo(logo_file), regenerate
the logo; otherwise reuse the file on disk. -/
def ensure_logo (clinicName : String) (st : RenderState) : RenderState :=
  let logo_file := logo_file_for clinicName
  if !(pathExists st logo_file) || !(verify_logo st logo_file) then
    (generate_logo clinicName logo_file st).1
  else st

/-- The body of the try block of generate_claim_pdf (claimgenerator.py lines
191-270): ensure the logo, compute the total (line 257, the fallible step),
and at c.save() write the document.  An error is returned together with the
state reached so far: the logo side effect persists, the output file does
not appear. -/
def claim_pdf_body (clinic : Clinic) (doctor : String × String)
    (diagnosis : String) (output_pdf : String) (design : Design)
    (billing_items : List (List String)) (patient_name : String)
    (patient_id : Nat) (dateOfService : String) (st : RenderState) :
    RenderState × Except String Unit :=
  let st1 := ensure_logo clinic.name st
  match computeTotal billing_items with
  | Except.error e => (st1, Except.error e)
  | Except.ok total_amount =>
      let texts := canvasTexts clinic doctor diagnosis patient_name patient_id
        dateOfService total_amount
      ({ st1 with outputs := insertAssoc st1.outputs output_pdf texts },
       Except.ok ())

/-- generate_claim_pdf (claimgenerator.py lines 179-272): run the body under
the catch-all handler — on success log it, on any exception log the error
and return normally.  The function always returns (None in Python, a bare
RenderState here) and never propagates an exception. -/
def generate_claim_pdf (clinic : Clinic) (doctor : String × String)
    (diagnosis : String) (fraud_type : String) (output_pdf : String)
    (design : Design) (billing_items : List (List String))
    (patient_name : String) (patient_id : Nat) (dateOfService : String)
    (st : RenderState) : RenderState :=
  match claim_pdf_body clinic doctor diagnosis output_pdf design billing_items
      patient_name patient_id dateOfService st with
  | (st', Except.ok _) =>
      { st' with logLines := st'.logLines ++
          ["Claim PDF generated successfully: " ++ output_pdf] }
  | (st', Except.error e) =>
      { st' with logLines := st'.logLines ++
          ["Error generating claim PDF for " ++ fraud_type ++ ": " ++ e] }

/-! ## The design store (claimgenerator.py, load_or_create_designs)

design.json is embedded as Option DesignStore: none when the file does not
exist, some of the parsed store otherwise.  random.choice is embedded as an
index into the (non-empty) palette list, drawn from an explicit per-clinic
random stream. -/

/-- The palette of primary colors (claimgenerator.py line 55). -/
def primary_palette : List String :=
  ["#1f77b4", "#ff7f0e", "#2ca02c", "#d62728", "#9467bd"]

/-- The palette of secondary colors (claimgenerator.py line 56). -/
def secondary_palette : List String :=
  ["#aec7e8", "#ffbb78", "#98df8a", "#ff9896", "#c5b0d5"]

/-- The palette of fonts (claimgenerator.py line 57). -/
def font_palette : List String :=
  ["Helvetica-Bold", "Times-Roman", "Courier"]

/-- The parsed content of design.json: clinic name to style record. -/
abbrev DesignStore := List (String × Design)

/-- random.choice on a non-empty list, driven by an index from the random
stream. -/
def randomChoice (xs : List String) (r : Nat) : String :=
  xs.getD (r % xs.length) ""

/-- The body of the for loop of load_or_create_designs (claimgenerator.py
lines 52-58): designs[clinic_name] = the three random choices, where rand i
supplies the three random draws for the clinic at position i. -/
def designStep (rand : Nat → Nat × Nat × Nat) (designs : DesignStore)
    (p : Nat × Clinic) : DesignStore :=
  insertAssoc designs (p.2).name
    { primary_color := randomChoice primary_palette (rand p.1).1,
      secondary_color := randomChoice secondary_palette (rand p.1).2.1,
      font := randomChoice font_palette (rand p.1).2.2 }

/-- The for loop of load_or_create_designs (claimgenerator.py lines 51-58),
run over the clinics with their positions. -/
def mkDesigns (rand : Nat → Nat × Nat × Nat) (clinics_info : List Clinic) :
    DesignStore :=
  clinics_info.enum.foldl (designStep rand) []

/-- load_or_create_designs (claimgenerator.py lines 39-61): when design.json
exists its parsed content is returned as is (the clinic list and the random
stream are never consulted and the file is left unchanged); otherwise every
clinic gets a random style and the new store is written to design.json.
Returns the designs and the new state of the file. -/
def load_or_create_designs (rand : Nat → Nat × Nat × Nat)
    (clinics_info : List Clinic) (designFile : Option DesignStore) :
    DesignStore × Option DesignStore :=
  match designFile with
  | some store => (store, some store)
  | none =>
      let designs := mkDesigns rand clinics_info
      (designs, some designs)

/-! ## load_data (claimgenerator.py, lines 64-105)

The three input files are embedded as optional parsed contents: none is a
missing file (open raises FileNotFoundError), some holds the rows DictReader
or json.load would produce.  The except block of load_data logs and
re-raises, so every failure is a propagated exception, embedded as
Except.error. -/

/-- One csv.DictReader row: present columns with their values. -/
abbrev CsvRow := List (String × String)

/-- row.get(key, default). -/
def rowGet (row : CsvRow) (key dflt : String) : String :=
  match lookupAssoc row key with
  | some v => v
  | none => dflt

/-- The defaulting block of load_data (claimgenerator.py lines 79-82):
row[k] = row.get(k, "N/A") for telephone, address, location, email. -/
def setClinicDefaults (row : CsvRow) : CsvRow :=
  let r1 := insertAssoc row "telephone" (rowGet row "telephone" "N/A")
  let r2 := insertAssoc r1 "address" (rowGet r1 "address" "N/A")
  let r3 := insertAssoc r2 "location" (rowGet r2 "location" "N/A")
  insertAssoc r3 "email" (rowGet r3 "email" "N/A")

/-- The input files read by load_data. -/
structure DataFS where
  hospitals_csv : Option (List CsvRow)
  doctors_csv : Option (List (String × String))
  specialties_json : Option (List (String × List String))
deriving Repr

/-- load_data (claimgenerator.py lines 64-105): read the clinic rows (raising
when the file is missing or the row list is empty), the doctor rows (same),
and the specialty table (same), in that order. -/
def load_data (fs : DataFS) :
    Except String (List CsvRow × List (String × String) ×
      List (String × List String)) :=
  match fs.hospitals_csv with
  | none => Except.error "FileNotFoundError: hospitals_and_clinics.csv"
  | some rows =>
      let clinics_info := rows.map setClinicDefaults
      if clinics_info.isEmpty then
        Except.error "No data found in hospitals_and_clinics.csv"
      else
        match fs.doctors_csv with
        | none => Except.error "FileNotFoundError: doctors_and_specialists_list.csv"
        | some doctors_info =>
            if doctors_info.isEmpty then
              Except.error "No data found in doctors_and_specialists_list.csv"
            else
              match fs.specialties_json with
              | none => Except.error "FileNotFoundError: specialities_diseases.json"
              | some specialties_diseases =>
                  if specialties_diseases.isEmpty then
                    Except.error "No data found in specialities_diseases.json"
                  else
                    Except.ok (clinics_info, doctors_info, specialties_diseases)

/-! ## The batch-selection loop (claimgenerator.py, lines 310-328) -/

/-- One work item submitted to the executor: the arguments of one
generate_claim_pdf call, together with the slot index i that named its
output file. -/
structure ClaimTask where
  slot : Nat
  clinic : Clinic
  doctor : String × String
  diagnosis : String
  fraud_type : String
  output_pdf : String
  billing_items : List (List String)
deriving DecidableEq, Repr

/-- One pass of the batch loop (claimgenerator.py lines 310-318 for the
legitimate pass, 320-328 for the fraudulent pass): for i in range(count),
pick a random clinic and doctor; only when the doctor specialty is a key of
specialties_diseases, pick a diagnosis, build the billing rows and submit a
task; otherwise nothing is submitted for that slot.  The random.choice calls
are embedded as explicit pick functions indexed by the slot. -/
def selectBatch (count : Nat) (fraud_type : String) (nameStem : String)
    (pickClinic : Nat → Clinic) (pickDoctor : Nat → String × String)
    (pickDiagnosis : Nat → List String → String)
    (specialties_diseases : List (String × List String))
    (billing_items_data : BillingTable) : List ClaimTask :=
  (List.range count).filterMap (fun i =>
    let clinic := pickClinic i
    let doctor := pickDoctor i
    let specialty := doctor.2
    match lookupAssoc specialties_diseases specialty with
    | some diseases =>
        let diagnosis := pickDiagnosis i diseases
        some { slot := i, clinic := clinic, doctor := doctor,
               diagnosis := diagnosis, fraud_type := fraud_type,
               output_pdf := "output/" ++ nameStem ++ toString i ++ ".pdf",
               billing_items :=
                 get_billing_items_for_diagnosis diagnosis billing_items_data }
    | none => none)

/-! ## The scraper CSV writers

clinic_scrapper.py save_to_csv and doctor_scrapper.py save_doctors_to_csv.
The output file is embedded as Option CsvFile (none: no file); each writer
returns the new file state and the warnings it emitted. -/

/-- A written CSV file: header row and data rows. -/
structure CsvFile where
  header : List String
  rows : List (List String)
deriving DecidableEq, Repr

/-- One record built by fetch_hospital_details (clinic_scrapper.py lines
119-125): a dict with exactly the keys name, field, telephone, address,
location, each possibly None. -/
structure HospitalDetail where
  name : Option String
  field : Option String
  telephone : Option String
  address : Option String
  location : Option String
deriving DecidableEq, Repr

/-- d.keys(): every detail dict is built with this fixed key set, in this
order. -/
def detailKeys (d : HospitalDetail) : List String :=
  ["name", "field", "telephone", "address", "location"]

/-- The DictWriter row of one detail record (None is written as the empty
string). -/
def detailRow (d : HospitalDetail) : List String :=
  [d.name.getD "", d.field.getD "", d.telephone.getD "", d.address.getD "",
   d.location.getD ""]

/-- save_to_csv (clinic_scrapper.py lines 173-188): with no records, warn
and return without touching the file; otherwise write header (the keys of
the first record) and all rows. -/
def save_to_csv (hospital_details : List HospitalDetail) (fs : Option CsvFile) :
    Option CsvFile × List String :=
  match hospital_details with
  | [] => (fs, ["No hospital details to save."])
  | d :: rest =>
      (some { header := detailKeys d, rows := (d :: rest).map detailRow }, [])

/-- save_doctors_to_csv (doctor_scrapper.py lines 66-72): always opens the
file for writing, writes the fixed header row and then every data row — no
emptiness check, no warning. -/
def save_doctors_to_csv (doctor_data : List (List String)) (fs : Option CsvFile) :
    Option CsvFile × List String :=
  (some { header := ["Doctor Name", "Specialty"], rows := doctor_data }, [])

/-! ## Theorems -/

theorem ensure_logo_outputs (n : String) (st : RenderState) :
    (ensure_logo n st).outputs = st.outputs := by
  unfold ensure_logo
  by_cases hc : (!pathExists st (logo_file_for n) ||
      !verify_logo st (logo_file_for n)) = true
  · simp [hc, generate_logo]
  · simp [hc]

theorem ensure_logo_verified_id (n : String) (st : RenderState)
    (hv : verify_logo st (logo_file_for n) = true) : ensure_logo n st = st := by
  have hex : pathExists st (logo_file_for n) = true := by
    unfold verify_logo at hv
    unfold pathExists
    cases h : lookupAssoc st.logos (logo_file_for n) with
    | none => rw [h] at hv; exact absurd hv (by simp)
    | some b => rfl
  unfold ensure_logo
  simp [hex, hv]

theorem ensure_logo_regen (n : String) (st : RenderState)
    (h : pathExists st (logo_file_for n) = false ∨
      verify_logo st (logo_file_for n) = false) :
    ensure_logo n st = (generate_logo n (logo_file_for n) st).1 := by
  unfold ensure_logo
  rcases h with h | h <;> simp [h]

theorem ensure_logo_genCalls (n : String) (st : RenderState) :
    (ensure_logo n st).genCalls = st.genCalls ∨
    (ensure_logo n st).genCalls = st.genCalls ++ [logo_file_for n] := by
  unfold ensure_logo
  by_cases hc : (!pathExists st (logo_file_for n) ||
      !verify_logo st (logo_file_for n)) = true
  · right; simp [hc, generate_logo]
  · left; simp [hc]

theorem ensure_logo_verifies (n : String) (st : RenderState) :
    verify_logo (ensure_logo n st) (logo_file_for n) = true := by
  by_cases hv : verify_logo st (logo_file_for n) = true
  · rw [ensure_logo_verified_id n st hv]; exact hv
  · rw [ensure_logo_regen n st (Or.inr (by simpa using hv))]
    simp [generate_logo, verify_logo, lookupAssoc_insertAssoc_self]

theorem generate_claim_pdf_genCalls_eq (clinic : Clinic)
    (doctor : String × String) (diagnosis fraud_type output_pdf : String)
    (design : Design) (billing_items : List (List String))
    (patient_name : String) (patient_id : Nat) (dateOfService : String)
    (st : RenderState) :
    (generate_claim_pdf clinic doctor diagnosis fraud_type output_pdf design
        billing_items patient_name patient_id dateOfService st).genCalls =
      (ensure_logo clinic.name st).genCalls := by
  unfold generate_claim_pdf claim_pdf_body
  cases hct : computeTotal billing_items <;> simp

theorem generate_claim_pdf_logos_eq (clinic : Clinic)
    (doctor : String × String) (diagnosis fraud_type output_pdf : String)
    (design : Design) (billing_items : List (List String))
    (patient_name : String) (patient_id : Nat) (dateOfService : String)
    (st : RenderState) :
    (generate_claim_pdf clinic doctor diagnosis fraud_type output_pdf design
        billing_items patient_name patient_id dateOfService st).logos =
      (ensure_logo clinic.name st).logos := by
  unfold generate_claim_pdf claim_pdf_body
  cases hct : computeTotal billing_items <;> simp

/-- C1: for every diagnosis name absent from the billing-items table,
get_billing_items_for_diagnosis returns exactly the two-line fallback: the
Consultation row followed by the Lab Test row. -/
theorem billing_fallback_of_absent_diagnosis (diagnosis : String)
    (billing_items_data : BillingTable)
    (h : lookupAssoc billing_items_data diagnosis = none) :
    get_billing_items_for_diagnosis diagnosis billing_items_data =
      [ ["Consultation", "General Consultation", "1", "1000", "1000"],
        ["Lab Test", "General Lab Test", "1", "500", "500"] ] := by
  simp [get_billing_items_for_diagnosis, h, fallbackBillingRows]

/-- C1 witness: the table knows only Malaria, so the lookup of Flu is absent
and the fallback rows are returned. -/
theorem billing_fallback_of_absent_diagnosis_witness :
    lookupAssoc ([("Malaria", ⟨[⟨"X", "Y", 1, 100, 100⟩]⟩)] : BillingTable)
        "Flu" = none ∧
    get_billing_items_for_diagnosis "Flu"
        [("Malaria", ⟨[⟨"X", "Y", 1, 100, 100⟩]⟩)] =
      [ ["Consultation", "General Consultation", "1", "1000", "1000"],
        ["Lab Test", "General Lab Test", "1", "500", "500"] ] :=
  ⟨by decide,
   billing_fallback_of_absent_diagnosis "Flu"
     [("Malaria", ⟨[⟨"X", "Y", 1, 100, 100⟩]⟩)] (by decide)⟩

/-- C10: get_billing_items_for_diagnosis never returns the empty list, and
the fallback is returned not only for an absent diagnosis but also when the
diagnosis is present with an empty billing_items list. -/
theorem billing_items_never_empty (diagnosis : String) (tbl : BillingTable) :
    get_billing_items_for_diagnosis diagnosis tbl ≠ [] ∧
    (∀ e, lookupAssoc tbl diagnosis = some e → e.billing_items = [] →
      get_billing_items_for_diagnosis diagnosis tbl = fallbackBillingRows) := by
  constructor
  · unfold get_billing_items_for_diagnosis
    cases h : lookupAssoc tbl diagnosis with
    | none => simp [fallbackBillingRows]
    | some e =>
        cases he : e.billing_items with
        | nil => simp [h, he, fallbackBillingRows]
        | cons a rest => simp [h, he]
  · intro e he hbe
    simp [get_billing_items_for_diagnosis, he, hbe]

/-- C10 witness: Flu is present with an empty billing_items list and the
fallback is returned (in particular the result is non-empty). -/
theorem billing_items_never_empty_witness :
    get_billing_items_for_diagnosis "Flu" [("Flu", ⟨[]⟩)] ≠ [] ∧
    get_billing_items_for_diagnosis "Flu" [("Flu", ⟨[]⟩)] =
      fallbackBillingRows :=
  ⟨(billing_items_never_empty "Flu" [("Flu", ⟨[]⟩)]).1,
   (billing_items_never_empty "Flu" [("Flu", ⟨[]⟩)]).2 ⟨[]⟩ (by decide) rfl⟩

/-- C2: when the fifth fields of the billing lines all parse (computeTotal,
the embedding of sum(float(item[4]) for item in billing_items), succeeds
with value t), the document rendered at output_pdf carries the total line
"Total Amount: Rs " followed by t formatted to two decimal places — the
displayed total is the sum of the Total column, taken from the parsed fifth
fields and not recomputed from quantity times unit price (the witness
exercises a line whose Total field disagrees with quantity times unit
price). -/
theorem displayed_total_is_sum_of_total_column (clinic : Clinic)
    (doctor : String × String) (diagnosis fraud_type output_pdf : String)
    (design : Design) (billing_items : List (List String))
    (patient_name : String) (patient_id : Nat) (dateOfService : String)
    (st : RenderState) (t : Dec)
    (h : computeTotal billing_items = Except.ok t) :
    lookupAssoc (generate_claim_pdf clinic doctor diagnosis fraud_type
        output_pdf design billing_items patient_name patient_id dateOfService
        st).outputs output_pdf =
      some (canvasTexts clinic doctor diagnosis patient_name patient_id
        dateOfService t) ∧
    (canvasTexts clinic doctor diagnosis patient_name patient_id dateOfService
        t).get? 10 = some ("Total Amount: Rs " ++ formatTwoDec t) := by
  constructor
  · unfold generate_claim_pdf claim_pdf_body
    rw [h]
    simp [lookupAssoc_insertAssoc_self]
  · simp [canvasTexts]

/-- C2 witness: one billing line with quantity 2, unit price 10 and Total
field 999; the displayed total is Rs 999.00 — the parsed Total column — and
not Rs 20.00, the quantity times unit price. -/
theorem displayed_total_is_sum_of_total_column_witness :
    computeTotal [["A", "B", "2", "10", "999"]] = Except.ok ⟨999, 0⟩ ∧
    lookupAssoc (generate_claim_pdf ⟨"C", "a", "t", "e"⟩ ("Dr", "GP") "Flu"
        "legitimate" "output/x.pdf" ⟨"#1f77b4", "#aec7e8", "Courier"⟩
        [["A", "B", "2", "10", "999"]] "Pat" 123456 "2026-01-01"
        ⟨[], [], [], []⟩).outputs "output/x.pdf" =
      some (canvasTexts ⟨"C", "a", "t", "e"⟩ ("Dr", "GP") "Flu" "Pat" 123456
        "2026-01-01" ⟨999, 0⟩) ∧
    "Total Amount: Rs " ++ formatTwoDec ⟨999, 0⟩ = "Total Amount: Rs 999.00" ∧
    "Total Amount: Rs " ++ formatTwoDec ⟨999, 0⟩ ≠ "Total Amount: Rs 20.00" :=
  ⟨rfl,
   (displayed_total_is_sum_of_total_column ⟨"C", "a", "t", "e"⟩ ("Dr", "GP")
     "Flu" "legitimate" "output/x.pdf" ⟨"#1f77b4", "#aec7e8", "Courier"⟩
     [["A", "B", "2", "10", "999"]] "Pat" 123456 "2026-01-01"
     ⟨[], [], [], []⟩ ⟨999, 0⟩ rfl).1,
   rfl, by decide⟩

/-- C3: generate_claim_pdf is total — the catch-all handler turns every
failure of the body (here: the IndexError or ValueError of the total
computation) into a log line — and on failure the destination file is not
produced: the outputs of the state are left exactly as they were, and the
last log line is the per-item error message. -/
theorem generate_claim_pdf_catches_failures (clinic : Clinic)
    (doctor : String × String) (diagnosis fraud_type output_pdf : String)
    (design : Design) (billing_items : List (List String))
    (patient_name : String) (patient_id : Nat) (dateOfService : String)
    (st : RenderState) (e : String)
    (hfail : computeTotal billing_items = Except.error e) :
    (generate_claim_pdf clinic doctor diagnosis fraud_type output_pdf design
        billing_items patient_name patient_id dateOfService st).outputs =
      st.outputs ∧
    (generate_claim_pdf clinic doctor diagnosis fraud_type output_pdf design
        billing_items patient_name patient_id dateOfService st).logLines.getLast? =
      some ("Error generating claim PDF for " ++ fraud_type ++ ": " ++ e) := by
  unfold generate_claim_pdf claim_pdf_body
  rw [hfail]
  constructor
  · simp [ensure_logo_outputs]
  · simp only []
    exact List.getLast?_concat _

/-- C3 witness: a billing line with fewer than five fields makes the body
raise IndexError; the handler logs it and no file appears at the
destination. -/
theorem generate_claim_pdf_catches_failures_witness :
    computeTotal [["x"]] = Except.error "IndexError: list index out of range" ∧
    (generate_claim_pdf ⟨"C", "a", "t", "e"⟩ ("Dr", "GP") "Flu" "fraudulent"
        "output/y.pdf" ⟨"p", "s", "Courier"⟩ [["x"]] "Pat" 7 "2026-01-01"
        ⟨[], [], [], []⟩).outputs = [] ∧
    (generate_claim_pdf ⟨"C", "a", "t", "e"⟩ ("Dr", "GP") "Flu" "fraudulent"
        "output/y.pdf" ⟨"p", "s", "Courier"⟩ [["x"]] "Pat" 7 "2026-01-01"
        ⟨[], [], [], []⟩).logLines.getLast? =
      some ("Error generating claim PDF for fraudulent: IndexError: list index out of range") :=
  ⟨rfl,
   (generate_claim_pdf_catches_failures ⟨"C", "a", "t", "e"⟩ ("Dr", "GP")
     "Flu" "fraudulent" "output/y.pdf" ⟨"p", "s", "Courier"⟩ [["x"]] "Pat" 7
     "2026-01-01" ⟨[], [], [], []⟩ "IndexError: list index out of range" rfl).1,
   (generate_claim_pdf_catches_failures ⟨"C", "a", "t", "e"⟩ ("Dr", "GP")
     "Flu" "fraudulent" "output/y.pdf" ⟨"p", "s", "Courier"⟩ [["x"]] "Pat" 7
     "2026-01-01" ⟨[], [], [], []⟩ "IndexError: list index out of range" rfl).2⟩

/-- C7: when the logo file of the clinic exists and passes verification,
generate_claim_pdf makes no generate_logo call; when it is missing or fails
verification, it makes exactly one, for that logo file, before rendering;
and in every case the state it renders under carries a verified logo. -/
theorem generate_claim_pdf_logo_reuse_or_regen (clinic : Clinic)
    (doctor : String × String) (diagnosis fraud_type output_pdf : String)
    (design : Design) (billing_items : List (List String))
    (patient_name : String) (patient_id : Nat) (dateOfService : String)
    (st : RenderState) :
    (verify_logo st (logo_file_for clinic.name) = true →
      (generate_claim_pdf clinic doctor diagnosis fraud_type output_pdf design
        billing_items patient_name patient_id dateOfService st).genCalls =
        st.genCalls) ∧
    (pathExists st (logo_file_for clinic.name) = false ∨
        verify_logo st (logo_file_for clinic.name) = false →
      (generate_claim_pdf clinic doctor diagnosis fraud_type output_pdf design
        billing_items patient_name patient_id dateOfService st).genCalls =
        st.genCalls ++ [logo_file_for clinic.name]) ∧
    verify_logo (generate_claim_pdf clinic doctor diagnosis fraud_type
        output_pdf design billing_items patient_name patient_id dateOfService
        st) (logo_file_for clinic.name) = true := by
  refine ⟨?_, ?_, ?_⟩
  · intro hv
    rw [generate_claim_pdf_genCalls_eq, ensure_logo_verified_id clinic.name st hv]
  · intro h
    rw [generate_claim_pdf_genCalls_eq, ensure_logo_regen clinic.name st h]
    simp [generate_logo]
  · have hlogos := generate_claim_pdf_logos_eq clinic doctor diagnosis
      fraud_type output_pdf design billing_items patient_name patient_id
      dateOfService st
    have hver := ensure_logo_verifies clinic.name st
    unfold verify_logo at hver ⊢
    rw [hlogos]
    exact hver

/-- C7 witness: with a decodable logo on disk the renderer makes no
generate_logo call; with a corrupted one (verification fails) it regenerates
exactly that file. -/
theorem generate_claim_pdf_logo_reuse_or_regen_witness :
    verify_logo ⟨[("logos/logo_C.png", true)], [], [], []⟩ (logo_file_for "C") = true ∧
    (generate_claim_pdf ⟨"C", "a", "t", "e"⟩ ("Dr", "GP") "Flu" "legitimate"
        "output/z.pdf" ⟨"p", "s", "Courier"⟩ [["A", "B", "1", "5", "5"]] "Pat" 1
        "2026-01-01" ⟨[("logos/logo_C.png", true)], [], [], []⟩).genCalls = [] ∧
    verify_logo ⟨[("logos/logo_C.png", false)], [], [], []⟩ (logo_file_for "C") = false ∧
    (generate_claim_pdf ⟨"C", "a", "t", "e"⟩ ("Dr", "GP") "Flu" "legitimate"
        "output/z.pdf" ⟨"p", "s", "Courier"⟩ [["A", "B", "1", "5", "5"]] "Pat" 1
        "2026-01-01" ⟨[("logos/logo_C.png", false)], [], [], []⟩).genCalls =
      [logo_file_for "C"] :=
  ⟨by decide,
   (generate_claim_pdf_logo_reuse_or_regen ⟨"C", "a", "t", "e"⟩ ("Dr", "GP")
     "Flu" "legitimate" "output/z.pdf" ⟨"p", "s", "Courier"⟩
     [["A", "B", "1", "5", "5"]] "Pat" 1 "2026-01-01"
     ⟨[("logos/logo_C.png", true)], [], [], []⟩).1 (by decide),
   by decide,
   (generate_claim_pdf_logo_reuse_or_regen ⟨"C", "a", "t", "e"⟩ ("Dr", "GP")
     "Flu" "legitimate" "output/z.pdf" ⟨"p", "s", "Courier"⟩
     [["A", "B", "1", "5", "5"]] "Pat" 1 "2026-01-01"
     ⟨[("logos/logo_C.png", false)], [], [], []⟩).2.1 (Or.inr (by decide))⟩

/-- Modelled from the spec: section 6 calls the logo directory "a directory
of per-clinic logo images (keyed by sanitized clinic name)"; a sanitized
file key is read as one containing only filename-safe characters
(alphanumerics, underscore, hyphen, dot).  The repository contains no
sanitization code for this refinement to compare against. -/
def isSanitizedFileKey (s : String) : Bool :=
  s.data.all (fun c => c.isAlphanum || c = '_' || c = '-' || c = '.')

/-- C9 counterexample: for the clinic named "City Clinic 1" the renderer
persists the logo at "logos/logo_City Clinic 1.png" — the raw clinic name,
spaces included, so the file is not keyed by a sanitized clinic name. -/
theorem logo_key_not_sanitized_counterexample :
    (generate_claim_pdf ⟨"City Clinic 1", "a", "t", "e"⟩ ("Dr", "GP") "Flu"
        "legitimate" "output/c.pdf" ⟨"p", "s", "Courier"⟩
        [["A", "B", "1", "5", "5"]] "Pat" 1 "2026-01-01"
        ⟨[], [], [], []⟩).genCalls = ["logos/logo_City Clinic 1.png"] ∧
    isSanitizedFileKey "City Clinic 1" = false :=
  ⟨rfl, by decide⟩

/-- C9 amended: the per-clinic logo persisted by generate_claim_pdf is keyed
by the clinic name taken verbatim, with no sanitization: any generate_logo
call it makes targets exactly "logos/logo_" ++ clinic.name ++ ".png" (and
when the logo already verifies it makes none). -/
theorem logo_key_is_verbatim_clinic_name (clinic : Clinic)
    (doctor : String × String) (diagnosis fraud_type output_pdf : String)
    (design : Design) (billing_items : List (List String))
    (patient_name : String) (patient_id : Nat) (dateOfService : String)
    (st : RenderState) :
    (generate_claim_pdf clinic doctor diagnosis fraud_type output_pdf design
        billing_items patient_name patient_id dateOfService st).genCalls =
      st.genCalls ∨
    (generate_claim_pdf clinic doctor diagnosis fraud_type output_pdf design
        billing_items patient_name patient_id dateOfService st).genCalls =
      st.genCalls ++ ["logos/logo_" ++ clinic.name ++ ".png"] := by
  rcases ensure_logo_genCalls clinic.name st with h | h
  · left
    rw [generate_claim_pdf_genCalls_eq, h]
  · right
    rw [generate_claim_pdf_genCalls_eq, h]
    rfl

/-- C4: the batch-selection loop submits at most count tasks, and for a slot
whose randomly chosen doctor has a specialty absent from the
specialty-to-diagnosis table no task is submitted for that slot at all (it
is skipped, not retried, not backfilled). -/
theorem selectBatch_skips_unknown_specialty (count : Nat)
    (fraud_type nameStem : String) (pickClinic : Nat → Clinic)
    (pickDoctor : Nat → String × String)
    (pickDiagnosis : Nat → List String → String)
    (specialties_diseases : List (String × List String))
    (billing_items_data : BillingTable) :
    (selectBatch count fraud_type nameStem pickClinic pickDoctor pickDiagnosis
        specialties_diseases billing_items_data).length ≤ count ∧
    (∀ i, lookupAssoc specialties_diseases (pickDoctor i).2 = none →
      ∀ t ∈ selectBatch count fraud_type nameStem pickClinic pickDoctor
          pickDiagnosis specialties_diseases billing_items_data, t.slot ≠ i) := by
  constructor
  · calc (selectBatch count fraud_type nameStem pickClinic pickDoctor
          pickDiagnosis specialties_diseases billing_items_data).length
        ≤ (List.range count).length := List.length_filterMap_le _ _
      _ = count := List.length_range count
  · intro i hi t ht hslot
    obtain ⟨j, hj, hfj⟩ := List.mem_filterMap.mp ht
    cases hl : lookupAssoc specialties_diseases (pickDoctor j).2 with
    | none => simp [hl] at hfj
    | some diseases =>
        have hslot' : t.slot = j := by
          simp only [hl, Option.some.injEq] at hfj
          rw [← hfj]
        rw [hslot'] at hslot
        rw [hslot] at hl
        rw [hi] at hl
        exact Option.noConfusion hl

/-- C4 witness: two slots; the doctor of slot 0 has specialty Unknown, which
is absent from the table, so the only submitted task is for slot 1 and the
batch has at most the requested two tasks. -/
theorem selectBatch_skips_unknown_specialty_witness :
    (selectBatch 2 "legitimate" "legit_claim_" (fun _ => ⟨"C", "a", "t", "e"⟩)
        (fun i => if i = 0 then ("A", "Unknown") else ("B", "GP"))
        (fun _ ds => ds.getD 0 "") [("GP", ["Flu"])] []).length ≤ 2 ∧
    ({ slot := 1, clinic := ⟨"C", "a", "t", "e"⟩, doctor := ("B", "GP"),
       diagnosis := "Flu", fraud_type := "legitimate",
       output_pdf := "output/legit_claim_1.pdf",
       billing_items := fallbackBillingRows } : ClaimTask).slot ≠ 0 ∧
    ({ slot := 1, clinic := ⟨"C", "a", "t", "e"⟩, doctor := ("B", "GP"),
       diagnosis := "Flu", fraud_type := "legitimate",
       output_pdf := "output/legit_claim_1.pdf",
       billing_items := fallbackBillingRows } : ClaimTask) ∈
      selectBatch 2 "legitimate" "legit_claim_" (fun _ => ⟨"C", "a", "t", "e"⟩)
        (fun i => if i = 0 then ("A", "Unknown") else ("B", "GP"))
        (fun _ ds => ds.getD 0 "") [("GP", ["Flu"])] [] :=
  ⟨(selectBatch_skips_unknown_specialty 2 "legitimate" "legit_claim_"
      (fun _ => ⟨"C", "a", "t", "e"⟩)
      (fun i => if i = 0 then ("A", "Unknown") else ("B", "GP"))
      (fun _ ds => ds.getD 0 "") [("GP", ["Flu"])] []).1,
   (selectBatch_skips_unknown_specialty 2 "legitimate" "legit_claim_"
      (fun _ => ⟨"C", "a", "t", "e"⟩)
      (fun i => if i = 0 then ("A", "Unknown") else ("B", "GP"))
      (fun _ ds => ds.getD 0 "") [("GP", ["Flu"])] []).2 0 (by decide) _
      (by decide),
   by decide⟩

theorem randomChoice_mem (xs : List String) (r : Nat) (h : xs ≠ []) :
    randomChoice xs r ∈ xs := by
  unfold randomChoice
  have hlen : r % xs.length < xs.length :=
    Nat.mod_lt _ (List.length_pos.mpr h)
  rw [List.getD_eq_getElem xs "" hlen]
  exact List.getElem_mem hlen

/-- Every style in a design-store fold is drawn from the fixed palettes. -/
def validDesign (d : Design) : Prop :=
  d.primary_color ∈ primary_palette ∧ d.secondary_color ∈ secondary_palette ∧
    d.font ∈ font_palette

theorem designStep_foldl_valid (rand : Nat → Nat × Nat × Nat)
    (l : List (Nat × Clinic)) (init : DesignStore)
    (hinit : ∀ k d, lookupAssoc init k = some d → validDesign d) :
    ∀ k d, lookupAssoc (l.foldl (designStep rand) init) k = some d →
      validDesign d := by
  induction l generalizing init with
  | nil => exact hinit
  | cons p rest ih =>
      intro k d h
      refine ih _ ?_ k d h
      intro k' d' h'
      rw [designStep, lookupAssoc_insertAssoc] at h'
      by_cases hk : k' = (p.2).name
      · rw [if_pos hk] at h'
        cases h'
        exact ⟨randomChoice_mem _ _ (by simp [primary_palette]),
               randomChoice_mem _ _ (by simp [secondary_palette]),
               randomChoice_mem _ _ (by simp [font_palette])⟩
      · rw [if_neg hk] at h'
        exact hinit k' d' h'

theorem lookupAssoc_insertAssoc_isSome {β : Type} (l : List (String × β))
    (key k : String) (v : β) (h : (lookupAssoc l k).isSome = true) :
    (lookupAssoc (insertAssoc l key v) k).isSome = true := by
  rw [lookupAssoc_insertAssoc]
  by_cases hk : k = key
  · simp [hk]
  · simp only [if_neg hk]
    exact h

theorem designStep_foldl_isSome (rand : Nat → Nat × Nat × Nat)
    (l : List (Nat × Clinic)) (init : DesignStore) (k : String)
    (h : (lookupAssoc init k).isSome = true) :
    (lookupAssoc (l.foldl (designStep rand) init) k).isSome = true := by
  induction l generalizing init with
  | nil => exact h
  | cons p rest ih =>
      exact ih _ (lookupAssoc_insertAssoc_isSome _ _ _ _ h)

theorem designStep_foldl_key_present (rand : Nat → Nat × Nat × Nat)
    (l : List (Nat × Clinic)) (init : DesignStore) :
    ∀ p ∈ l, (lookupAssoc (l.foldl (designStep rand) init) (p.2).name).isSome = true := by
  induction l generalizing init with
  | nil => intro p hp; simp at hp
  | cons q rest ih =>
      intro p hp
      rcases List.mem_cons.mp hp with rfl | hp
      · refine designStep_foldl_isSome rand rest _ _ ?_
        rw [designStep, lookupAssoc_insertAssoc_self]
        rfl
      · exact ih _ p hp

/-- C5: load_or_create_designs is an idempotent load over the persisted
store — when design.json exists it is returned verbatim (no validation
against the supplied clinic list: a second call with any other clinic list
and random stream returns the identical store), and when the file does not
exist every supplied clinic receives a style drawn from the fixed palettes
and the resulting store is persisted. -/
theorem load_or_create_designs_idempotent (rand rand' : Nat → Nat × Nat × Nat)
    (clinics clinics' : List Clinic) (store : DesignStore) :
    load_or_create_designs rand clinics (some store) = (store, some store) ∧
    load_or_create_designs rand' clinics'
        (load_or_create_designs rand clinics (some store)).2 =
      (store, some store) ∧
    (∀ c ∈ clinics, ∃ d,
      lookupAssoc (load_or_create_designs rand clinics none).1 c.name = some d ∧
        d.primary_color ∈ primary_palette ∧
        d.secondary_color ∈ secondary_palette ∧ d.font ∈ font_palette) ∧
    (load_or_create_designs rand clinics none).2 =
      some (load_or_create_designs rand clinics none).1 := by
  refine ⟨rfl, rfl, ?_, rfl⟩
  intro c hc
  simp only [load_or_create_designs, mkDesigns]
  have hmem : ∃ p ∈ clinics.enum, p.2 = c := by
    rw [← List.enum_map_snd clinics] at hc
    obtain ⟨p, hp, he⟩ := List.mem_map.mp hc
    exact ⟨p, hp, he⟩
  obtain ⟨p, hp, he⟩ := hmem
  have hsome := designStep_foldl_key_present rand clinics.enum [] p hp
  rw [he] at hsome
  obtain ⟨d, hd⟩ := Option.isSome_iff_exists.mp hsome
  have hvalid := designStep_foldl_valid rand clinics.enum []
    (by intro k d h; simp [lookupAssoc] at h) c.name d hd
  exact ⟨d, hd, hvalid.1, hvalid.2.1, hvalid.2.2⟩

/-- C5 witness: with the file present, one call and a repeated call (under a
different clinic list and random stream) both return the stored record; with
the file absent, the sole clinic receives a palette style and the store is
persisted. -/
theorem load_or_create_designs_idempotent_witness :
    load_or_create_designs (fun _ => (0, 0, 0)) [⟨"C", "a", "t", "e"⟩]
        (some [("C", ⟨"#2ca02c", "#ffbb78", "Courier"⟩)]) =
      ([("C", ⟨"#2ca02c", "#ffbb78", "Courier"⟩)],
       some [("C", ⟨"#2ca02c", "#ffbb78", "Courier"⟩)]) ∧
    load_or_create_designs (fun _ => (1, 1, 1)) []
        (load_or_create_designs (fun _ => (0, 0, 0)) [⟨"C", "a", "t", "e"⟩]
          (some [("C", ⟨"#2ca02c", "#ffbb78", "Courier"⟩)])).2 =
      ([("C", ⟨"#2ca02c", "#ffbb78", "Courier"⟩)],
       some [("C", ⟨"#2ca02c", "#ffbb78", "Courier"⟩)]) ∧
    (∃ d, lookupAssoc (load_or_create_designs (fun _ => (0, 0, 0))
        [⟨"C", "a", "t", "e"⟩] none).1 "C" = some d ∧
      d.primary_color ∈ primary_palette ∧
      d.secondary_color ∈ secondary_palette ∧ d.font ∈ font_palette) ∧
    (load_or_create_designs (fun _ => (0, 0, 0)) [⟨"C", "a", "t", "e"⟩] none).2 =
      some (load_or_create_designs (fun _ => (0, 0, 0))
        [⟨"C", "a", "t", "e"⟩] none).1 :=
  ⟨(load_or_create_designs_idempotent (fun _ => (0, 0, 0)) (fun _ => (1, 1, 1))
      [⟨"C", "a", "t", "e"⟩] [] [("C", ⟨"#2ca02c", "#ffbb78", "Courier"⟩)]).1,
   (load_or_create_designs_idempotent (fun _ => (0, 0, 0)) (fun _ => (1, 1, 1))
      [⟨"C", "a", "t", "e"⟩] [] [("C", ⟨"#2ca02c", "#ffbb78", "Courier"⟩)]).2.1,
   (load_or_create_designs_idempotent (fun _ => (0, 0, 0)) (fun _ => (1, 1, 1))
      [⟨"C", "a", "t", "e"⟩] [] [("C", ⟨"#2ca02c", "#ffbb78", "Courier"⟩)]).2.2.1
     ⟨"C", "a", "t", "e"⟩ (by decide),
   (load_or_create_designs_idempotent (fun _ => (0, 0, 0)) (fun _ => (1, 1, 1))
      [⟨"C", "a", "t", "e"⟩] [] [("C", ⟨"#2ca02c", "#ffbb78", "Courier"⟩)]).2.2.2⟩

/-- C6: load_data is fatal on degenerate inputs — a clinic CSV with zero
data rows raises (no silently empty clinic list), a missing clinic CSV
raises, and a missing doctor CSV or specialty JSON likewise aborts with a
raised error. -/
theorem load_data_fatal_on_empty_or_missing (fs : DataFS) :
    (fs.hospitals_csv = some [] →
      load_data fs = Except.error "No data found in hospitals_and_clinics.csv") ∧
    (fs.hospitals_csv = none →
      load_data fs = Except.error "FileNotFoundError: hospitals_and_clinics.csv") ∧
    (fs.doctors_csv = none → ∃ msg, load_data fs = Except.error msg) ∧
    (fs.specialties_json = none → ∃ msg, load_data fs = Except.error msg) := by
  refine ⟨?_, ?_, ?_, ?_⟩
  · intro h
    simp [load_data, h]
  · intro h
    simp [load_data, h]
  · intro h
    unfold load_data
    cases hh : fs.hospitals_csv with
    | none => exact ⟨_, rfl⟩
    | some rows =>
        by_cases hr : (rows.map setClinicDefaults).isEmpty
        · exact ⟨"No data found in hospitals_and_clinics.csv", by simp [hr]⟩
        · rw [h]
          exact ⟨"FileNotFoundError: doctors_and_specialists_list.csv",
            by simp [hr]⟩
  · intro h
    unfold load_data
    cases hh : fs.hospitals_csv with
    | none => exact ⟨_, rfl⟩
    | some rows =>
        by_cases hr : (rows.map setClinicDefaults).isEmpty
        · exact ⟨"No data found in hospitals_and_clinics.csv", by simp [hr]⟩
        · cases hd : fs.doctors_csv with
          | none => exact ⟨"FileNotFoundError: doctors_and_specialists_list.csv",
              by simp [hr]⟩
          | some docs =>
              by_cases hdm : docs.isEmpty
              · exact ⟨"No data found in doctors_and_specialists_list.csv",
                  by simp [hr, hdm]⟩
              · rw [h]
                exact ⟨"FileNotFoundError: specialities_diseases.json",
                  by simp [hr, hdm]⟩

/-- C6 witness: a zero-row clinic CSV raises the no-data error, a missing
clinic CSV raises the file error, and a missing doctor CSV or specialty
JSON raises too. -/
theorem load_data_fatal_on_empty_or_missing_witness :
    load_data ⟨some [], none, none⟩ =
      Except.error "No data found in hospitals_and_clinics.csv" ∧
    load_data ⟨none, none, none⟩ =
      Except.error "FileNotFoundError: hospitals_and_clinics.csv" ∧
    (∃ msg, load_data ⟨some [[("name", "A")]], none, some [("GP", ["Flu"])]⟩ =
      Except.error msg) ∧
    (∃ msg, load_data ⟨some [[("name", "A")]], some [("Dr", "GP")], none⟩ =
      Except.error msg) :=
  ⟨(load_data_fatal_on_empty_or_missing ⟨some [], none, none⟩).1 rfl,
   (load_data_fatal_on_empty_or_missing ⟨none, none, none⟩).2.1 rfl,
   (load_data_fatal_on_empty_or_missing
     ⟨some [[("name", "A")]], none, some [("GP", ["Flu"])]⟩).2.2.1 rfl,
   (load_data_fatal_on_empty_or_missing
     ⟨some [[("name", "A")]], some [("Dr", "GP")], none⟩).2.2.2 rfl⟩

/-- C8 counterexample: with zero collected records, the doctor scraper still
writes its CSV (a header-only file, fixed header, not inferred from any
record) and emits no warning — the write is not skipped and an output file
is produced, contrary to the claim for "both scrapers". -/
theorem doctor_csv_written_when_empty_counterexample :
    save_doctors_to_csv [] none =
      (some { header := ["Doctor Name", "Specialty"], rows := [] }, []) := rfl

/-- C8 amended: the clinic scraper writes its CSV once at the end with the
headers taken from the first record and, with zero records, skips the write
with a warning (no file produced); the doctor scraper always writes its CSV
with the fixed header Doctor Name, Specialty — even for zero records — with
no skip and no warning. -/
theorem csv_writers_amended (hospital_details : List HospitalDetail)
    (fs fs' : Option CsvFile) (doctor_data : List (List String)) :
    (hospital_details = [] →
      save_to_csv hospital_details fs = (fs, ["No hospital details to save."])) ∧
    (∀ d rest, hospital_details = d :: rest →
      save_to_csv hospital_details fs =
        (some { header := detailKeys d, rows := (d :: rest).map detailRow }, [])) ∧
    save_doctors_to_csv doctor_data fs' =
      (some { header := ["Doctor Name", "Specialty"], rows := doctor_data }, []) := by
  refine ⟨?_, ?_, rfl⟩
  · intro h
    rw [h]
    rfl
  · intro d rest h
    rw [h]
    rfl

/-- C8 amended witness: zero clinic records warn and leave no file; one
clinic record is written under the five inferred headers; the doctor writer
writes even an empty batch. -/
theorem csv_writers_amended_witness :
    save_to_csv [] none = (none, ["No hospital details to save."]) ∧
    save_to_csv [⟨some "H", none, none, none, none⟩] none =
      (some { header := ["name", "field", "telephone", "address", "location"],
              rows := [["H", "", "", "", ""]] }, []) :=
  ⟨(csv_writers_amended [] none none []).1 rfl,
   (csv_writers_amended [⟨some "H", none, none, none, none⟩] none none []).2.1
     ⟨some "H", none, none, none, none⟩ [] rfl⟩

end Scrapper
